import Mathlib

/-
Verification development for a Telegram intake bot (`bot.py`).

The program's strings are modelled as lists of Unicode code points
(`Str := List Nat`), with the ASCII case/whitespace/digit operations the
source relies on.  Pure helper functions (`format_day`, `format_time`,
`format_uri`, `format_language`, `format_gampanin`, `format_local`,
`format_name`, `format_housing`), the two record parsers, the conversation
command handlers and the pending-notification loop are embedded as
executable Lean definitions; stateful handlers become explicit functions
from session state, the pending registry, and a gateway outcome to a
result record (new state, new registry, reply, next conversation state,
rows written).
-/

set_option maxRecDepth 4096

/-- Strings are lists of Unicode code points. -/
abbrev Str := List Nat

/-- Code points of a Lean string literal, used to write concrete inputs. -/
def strL (s : String) : Str := s.data.map Char.toNat

/-- Python `str.strip` whitespace (ASCII part). -/
def isPySpace (c : Nat) : Bool := c = 32 || c = 9 || c = 10 || c = 11 || c = 12 || c = 13

/-- ASCII uppercase letter test. -/
def isUpperCh (c : Nat) : Bool := 65 ≤ c && c ≤ 90

/-- ASCII lowercase letter test. -/
def isLowerCh (c : Nat) : Bool := 97 ≤ c && c ≤ 122

/-- ASCII letter test. -/
def isAlphaCh (c : Nat) : Bool := isUpperCh c || isLowerCh c

/-- ASCII digit test (regex `[0-9]`, `str.isdigit` on ASCII). -/
def isDigitCh (c : Nat) : Bool := 48 ≤ c && c ≤ 57

/-- Lowercase one code point (ASCII). -/
def toLowerCh (c : Nat) : Nat := if isUpperCh c then c + 32 else c

/-- Uppercase one code point (ASCII). -/
def toUpperCh (c : Nat) : Nat := if isLowerCh c then c - 32 else c

/-- Python `str.lower` (ASCII). -/
def pyLower (s : Str) : Str := s.map toLowerCh

/-- Python `str.upper` (ASCII). -/
def pyUpper (s : Str) : Str := s.map toUpperCh

/-- Python `str.strip`. -/
def pyStrip (s : Str) : Str :=
  ((s.dropWhile isPySpace).reverse.dropWhile isPySpace).reverse

/-- Python `str.capitalize`: first code point uppercased, the rest lowered. -/
def pyCapitalize : Str → Str
  | [] => []
  | c :: rest => toUpperCh c :: pyLower rest

/-- Helper for `pyTitle`: the flag records whether the previous character was a letter. -/
def pyTitleAux : Bool → Str → Str
  | _, [] => []
  | prevAlpha, c :: rest =>
    (if isAlphaCh c then (if prevAlpha then toLowerCh c else toUpperCh c) else c)
      :: pyTitleAux (isAlphaCh c) rest

/-- Python `str.title` (ASCII): uppercase each letter that follows a non-letter,
lowercase letters that follow a letter. -/
def pyTitle (s : Str) : Str := pyTitleAux false s

/-- Python `text.split(sep)` for a one-character separator: keeps empty segments,
always returns at least one segment. -/
def splitOn (sep : Nat) : Str → List Str
  | [] => [[]]
  | c :: rest =>
    match splitOn sep rest with
    | [] => [[]]
    | h :: t => if c = sep then [] :: h :: t else (c :: h) :: t

/-- Helper for `splitWs`: accumulates the current word (reversed). -/
def splitWsAux : Str → Str → List Str
  | [], acc => if acc = [] then [] else [acc.reverse]
  | c :: rest, acc =>
    if isPySpace c then
      (if acc = [] then splitWsAux rest [] else acc.reverse :: splitWsAux rest [])
    else splitWsAux rest (c :: acc)

/-- Python `str.split()` with no separator: splits on whitespace runs, drops empties. -/
def splitWs (s : Str) : List Str := splitWsAux s []

/-- Python `' '.join(ws)`. -/
def joinSpace : List Str → Str
  | [] => []
  | [w] => w
  | w :: ws => w ++ [32] ++ joinSpace ws

/-- Substring test: does `pat` occur inside the second list? (`'AM' in time_str`). -/
def containsSub (pat : Str) : Str → Bool
  | [] => pat.isPrefixOf ([] : Str)
  | c :: rest => pat.isPrefixOf (c :: rest) || containsSub pat rest

/-- Decimal value of a list of ASCII digit code points (Python `int` on the digit core). -/
def digitsToNat (s : Str) : Nat := s.foldl (fun a c => a * 10 + (c - 48)) 0

/-- Helper for `natToStr` with fuel. -/
def natDigitsAux : Nat → Nat → Str
  | 0, _ => []
  | fuel + 1, n => if n < 10 then [48 + n] else natDigitsAux fuel (n / 10) ++ [48 + n % 10]

/-- Decimal rendering of a natural number as code points. -/
def natToStr (n : Nat) : Str := natDigitsAux (n + 1) n

/-- Python `f"{m:02d}"`. -/
def pad2 (m : Nat) : Str := if m < 10 then [48, 48 + m] else natToStr m

-- ======================
-- Constants from the source (SECTION 1)
-- ======================

/-- Valid gampanin codes (`VALID_GAMPANIN`). -/
def VALID_GAMPANIN : List Str :=
  [strL "S1", strL "S2", strL "R1", strL "R2", strL "S", strL "R",
   strL "SL1", strL "SL2", strL "SLR1", strL "SLR2"]

/-- Valid languages (`VALID_LANGUAGES`). -/
def VALID_LANGUAGES : List Str :=
  [strL "Tag", strL "Eng", strL "Spa", strL "Por", strL "Ita", strL "Ger",
   strL "Fre", strL "Jap", strL "Kor", strL "Man", strL "Can", strL "Ind",
   strL "Mal", strL "Hin", strL "Ara", strL "Tha", strL "Vie", strL "Bur",
   strL "Rus", strL "Swa", strL "Tam", strL "Ben", strL "Tel", strL "Tur",
   strL "Cam"]

/-- Valid URI values (`VALID_URI`). -/
def VALID_URI : List Str :=
  [strL "Minister", strL "Min", strL "M", strL "Regular", strL "Reg", strL "R",
   strL "Student", strL "Stu", strL "S"]

/-- Day mapping to full names (`DAY_FULL_NAMES`). -/
def DAY_FULL_NAMES : List (Str × Str) :=
  [(strL "Mon", strL "Monday"), (strL "Tue", strL "Tuesday"),
   (strL "Wed", strL "Wednesday"), (strL "Thu", strL "Thursday"),
   (strL "Fri", strL "Friday"), (strL "Sat", strL "Saturday"),
   (strL "Sun", strL "Sunday")]

/-- The 7 canonical day codes used by the schedule parser's membership check. -/
def DAY_CODES : List Str :=
  [strL "Mon", strL "Tue", strL "Wed", strL "Thu", strL "Fri", strL "Sat", strL "Sun"]

/-- Association-list lookup on code-point strings (Python `dict.get`). -/
def lookupStr : Str → List (Str × Str) → Option Str
  | _, [] => none
  | k, (k0, v) :: rest => if k = k0 then some v else lookupStr k rest

/-- Lookup with a default value (Python `dict.get(k, default)`). -/
def lookupStrD (k : Str) (m : List (Str × Str)) (d : Str) : Str :=
  match lookupStr k m with
  | some v => v
  | none => d

-- ======================
-- Field validators (SECTION 2 of the source)
-- ======================

/-- The `days_mapping` table inside `format_day`. -/
def days_mapping : List (Str × Str) :=
  [(strL "mon", strL "Mon"), (strL "monday", strL "Mon"),
   (strL "tue", strL "Tue"), (strL "tuesday", strL "Tue"),
   (strL "wed", strL "Wed"), (strL "wednesday", strL "Wed"),
   (strL "thu", strL "Thu"), (strL "thursday", strL "Thu"),
   (strL "fri", strL "Fri"), (strL "friday", strL "Fri"),
   (strL "sat", strL "Sat"), (strL "saturday", strL "Sat"),
   (strL "sun", strL "Sun"), (strL "sunday", strL "Sun")]

/-- `format_day(day)`: strip+lower, table lookup, else `day.capitalize()[:3]`. -/
def format_day (day : Str) : Str :=
  match lookupStr (pyLower (pyStrip day)) days_mapping with
  | some v => v
  | none => (pyCapitalize (pyLower (pyStrip day))).take 3

/-- The code points of `"AM"`. -/
def amStr : Str := [65, 77]

/-- The code points of `"PM"`. -/
def pmStr : Str := [80, 77]

/-- `time_str.strip().upper().replace(" ", "")`. -/
def stripSpacesUpper (s : Str) : Str :=
  (pyUpper (pyStrip s)).filter (fun c => c != 32)

/-- The digit core of a time string (`re.sub(r'[^0-9]', '', time_str)`). -/
def coreOf (s : Str) : Str := (stripSpacesUpper s).filter isDigitCh

/-- `f"{hours}:{minutes:02d} {period}"`. -/
def renderTime (h m : Nat) (per : Str) : Str :=
  natToStr h ++ [58] ++ pad2 m ++ [32] ++ per

/-- `format_time(time_str)` from the source, faithful to the branch structure:
optional AM/PM marker, digit core split as HHMM when longer than two digits,
24-hour disambiguation when no marker, and the final 1..12 / 0..59 range check. -/
def format_time (time_str : Str) : Option Str :=
  let t := stripSpacesUpper time_str
  let hasA := containsSub amStr t
  let hasP := containsSub pmStr t
  let time_part := t.filter isDigitCh
  let period : Str := if hasA || hasP then (if hasA then amStr else pmStr) else []
  if time_part = [] then none
  else
    let L := time_part.length
    let hours := if L ≤ 2 then digitsToNat time_part else digitsToNat (time_part.take (L - 2))
    let minutes := if L ≤ 2 then 0 else digitsToNat (time_part.drop (L - 2))
    let hours2 :=
      if period = [] then
        if 12 ≤ hours then (if 12 < hours then hours - 12 else hours)
        else (if hours = 0 then 12 else hours)
      else hours
    let period2 :=
      if period = [] then (if 12 ≤ hours then pmStr else amStr) else period
    if hours2 < 1 ∨ 12 < hours2 ∨ 59 < minutes then none
    else some (renderTime hours2 minutes period2)

/-- `format_gampanin(code)`. -/
def format_gampanin (code : Str) : Option Str :=
  let c := pyUpper (pyStrip code)
  if c ∈ VALID_GAMPANIN then some c else none

/-- `format_language(lang)`: `lang.strip().title()[:3]`, membership in `VALID_LANGUAGES`. -/
def format_language (lang : Str) : Option Str :=
  let l := (pyTitle (pyStrip lang)).take 3
  if l ∈ VALID_LANGUAGES then some l else none

/-- `format_local(local)`: per-word capitalization joined by single spaces. -/
def format_local (l : Str) : Str :=
  joinSpace ((splitWs (pyStrip l)).map pyCapitalize)

/-- `format_name(name)`. -/
def format_name (name : Str) : Str :=
  joinSpace ((splitWs (pyStrip name)).map pyCapitalize)

/-- `format_housing(housing)`. -/
def format_housing (housing : Str) : Str :=
  joinSpace ((splitWs (pyStrip housing)).map pyCapitalize)

/-- `startswith` with a one-character needle. -/
def startsWithCh (c : Nat) : Str → Bool
  | [] => false
  | d :: _ => d == c

/-- `format_uri(uri)`: strip+title, exact membership in `VALID_URI`, else
first-letter fallback on the lowercased value. -/
def format_uri (uri : Str) : Option Str :=
  let u := pyTitle (pyStrip uri)
  if u ∈ VALID_URI then some u
  else
    let ul := pyLower u
    if startsWithCh 109 ul then some (strL "Minister")
    else if startsWithCh 114 ul then some (strL "Regular")
    else if startsWithCh 115 ul then some (strL "Student")
    else none

/-- Python `str.isdigit` (ASCII): nonempty and all digit code points. -/
def pyIsDigit (s : Str) : Bool := !s.isEmpty && s.all isDigitCh

-- ======================
-- Record parsers
-- ======================

/-- Errors of `parse_and_validate_schedule_input`; each constructor stands for one
of the source's distinct error messages (field errors carry the echoed raw segment). -/
inductive SchedErr where
  | arity
  | invalidDay (s : Str)
  | invalidTime (s : Str)
  | invalidGampanin (s : Str)
  | invalidLanguage (s : Str)
deriving DecidableEq

/-- A validated schedule record (the dict returned by the parser). -/
structure ScheduleRecord where
  day : Str
  day_full : Str
  time : Str
  gampanin : Str
  language : Str
  loc : Str
deriving DecidableEq

/-- Validation of the five trimmed schedule segments, in the source's order:
day, time, gampanin, language, with first-error short-circuit; the location
segment is only normalized by `format_local`. -/
def validateScheduleParts (day time_str loc gampanin language : Str) :
    Except SchedErr ScheduleRecord :=
  if format_day day ∈ DAY_CODES then
    match format_time time_str with
    | none => .error (.invalidTime time_str)
    | some ft =>
      match format_gampanin gampanin with
      | none => .error (.invalidGampanin gampanin)
      | some fg =>
        match format_language language with
        | none => .error (.invalidLanguage language)
        | some fl =>
          .ok { day := format_day day,
                day_full := lookupStrD (format_day day) DAY_FULL_NAMES (format_day day),
                time := ft, gampanin := fg, language := fl,
                loc := format_local loc }
  else .error (.invalidDay day)

/-- `parse_and_validate_schedule_input(text)`: comma split, trim, arity check, then
field validation. -/
def parse_and_validate_schedule_input (text : Str) : Except SchedErr ScheduleRecord :=
  let parts := (splitOn 44 text).map pyStrip
  if parts.length = 5 then
    validateScheduleParts (parts.getD 0 []) (parts.getD 1 []) (parts.getD 2 [])
      (parts.getD 3 []) (parts.getD 4 [])
  else .error .arity

/-- Errors of `parse_and_validate_personal_info`. -/
inductive PInfoErr where
  | arity
  | invalidUri (s : Str)
  | wifeIdNotDigits
deriving DecidableEq

/-- A validated personal-info record. -/
structure PersonalInfoRecord where
  first_name : Str
  last_name : Str
  uri : Str
  uri_display : Str
  lokal : Str
  district : Str
  housing : Str
  wife_chat_id : Str
  wife_name : Str
deriving DecidableEq

/-- The `uri_display` dictionary lookup with the formatted uri as default. -/
def uriDisplay (u : Str) : Str :=
  lookupStrD u
    [(strL "Minister", strL "Minister"), (strL "Min", strL "Minister"),
     (strL "M", strL "Minister"), (strL "Regular", strL "Regular"),
     (strL "Reg", strL "Regular"), (strL "R", strL "Regular"),
     (strL "Student", strL "Student"), (strL "Stu", strL "Student"),
     (strL "S", strL "Student")] u

/-- Validation of the eight trimmed personal-info segments: the Uri check comes
first, then the wife-chat-id digits check; all other fields are only formatted. -/
def validatePInfoParts (fn ln uri lokal district housing wife_id wife_name : Str) :
    Except PInfoErr PersonalInfoRecord :=
  match format_uri uri with
  | none => .error (.invalidUri uri)
  | some fu =>
    if pyIsDigit wife_id then
      .ok { first_name := format_name fn, last_name := format_name ln,
            uri := fu, uri_display := uriDisplay fu,
            lokal := format_name lokal, district := format_name district,
            housing := format_housing housing,
            wife_chat_id := wife_id, wife_name := format_name wife_name }
    else .error .wifeIdNotDigits

/-- `parse_and_validate_personal_info(text)`: period split, comma-split fallback,
arity check, then field validation. -/
def parse_and_validate_personal_info (text : Str) : Except PInfoErr PersonalInfoRecord :=
  let parts0 := (splitOn 46 text).map pyStrip
  let parts := if parts0.length = 8 then parts0 else (splitOn 44 text).map pyStrip
  if parts.length = 8 then
    validatePInfoParts (parts.getD 0 []) (parts.getD 1 []) (parts.getD 2 [])
      (parts.getD 3 []) (parts.getD 4 []) (parts.getD 5 []) (parts.getD 6 [])
      (parts.getD 7 [])
  else .error .arity

-- ======================
-- Session state, command handlers, pending-notification registry
-- ======================

/-- `context.user_data` keys touched by the three dialogs. -/
structure UserData where
  formatted_data : Option ScheduleRecord := none
  user_name : Option Str := none
  personal_info : Option PersonalInfoRecord := none
  concern_message : Option Str := none
deriving DecidableEq

/-- Replies sent by the modelled handlers, by message. -/
inductive Reply where
  | sendPrompt
  | infoPrompt
  | concernPrompt
  | noDataToSubmit
  | noInfoToSubmit
  | noMessageToSubmit
  | scheduleSubmitted
  | infoRecorded
  | concernSent
  | errorSavingSchedule (msg : Str)
  | errorSavingInfo (msg : Str)
  | errorSendingConcern (msg : Str)
deriving DecidableEq

/-- One cell of an appended spreadsheet row. -/
inductive Cell where
  | num (n : Nat)
  | str (s : Str)
deriving DecidableEq

/-- One appended spreadsheet row. -/
abbrev Row := List Cell

/-- Outcome of a Submission Gateway call (sheet init + `append_row`). -/
inductive GWResult where
  | ok
  | err (msg : Str)
deriving DecidableEq

/-- Conversation states, as in the source's `range` assignments. -/
def INPUT_DATA : Int := 0

/-- Schedule confirmation state. -/
def CONFIRM_DATA : Int := 1

/-- Personal-info input state. -/
def INFO_INPUT : Int := 2

/-- Personal-info confirmation state. -/
def INFO_CONFIRM : Int := 3

/-- Concern input state. -/
def CONCERN_INPUT : Int := 4

/-- `ConversationHandler.END`. -/
def CONV_END : Int := -1

/-- `pending_notifications.add(chat_id)` on a list-modelled set: idempotent insert. -/
def addPending (p : List Nat) (c : Nat) : List Nat :=
  if c ∈ p then p else p ++ [c]

/-- `pending_notifications.discard(chat_id)`: removal that is a no-op when absent. -/
def discardPending (p : List Nat) (c : Nat) : List Nat := p.erase c

/-- Result of running one handler: new `user_data`, new pending registry, the reply,
the returned conversation state, and the rows appended to the store. -/
structure HandlerOut where
  userData : UserData
  pending : List Nat
  reply : Reply
  nextState : Int
  written : List Row
deriving DecidableEq

/-- `send_command`: discard the pending flag, prompt, enter `INPUT_DATA`. -/
def send_command (chatId : Nat) (ud : UserData) (pending : List Nat) : HandlerOut :=
  { userData := ud, pending := discardPending pending chatId,
    reply := .sendPrompt, nextState := INPUT_DATA, written := [] }

/-- `info_command`: discard the pending flag, delete any stored `personal_info`,
prompt, enter `INFO_INPUT`. -/
def info_command (chatId : Nat) (ud : UserData) (pending : List Nat) : HandlerOut :=
  { userData := { ud with personal_info := none },
    pending := discardPending pending chatId,
    reply := .infoPrompt, nextState := INFO_INPUT, written := [] }

/-- `concern_command`: discard the pending flag, prompt, enter `CONCERN_INPUT`. -/
def concern_command (chatId : Nat) (ud : UserData) (pending : List Nat) : HandlerOut :=
  { userData := ud, pending := discardPending pending chatId,
    reply := .concernPrompt, nextState := CONCERN_INPUT, written := [] }

/-- The row appended by `submit_schedule`. -/
def scheduleRow (chatId : Nat) (now : Str) (d : ScheduleRecord) (userName : Str) : Row :=
  [.num chatId, .str now, .str d.day, .str d.time, .str d.gampanin, .str d.loc,
   .str userName, .str d.language]

/-- `submit_schedule`: no draft ends the conversation with a notice and no write;
a successful write clears `user_data` and returns `INPUT_DATA`; a gateway failure
adds the chat to the pending registry, shows the error, keeps `user_data` intact,
and also returns `INPUT_DATA`. -/
def submit_schedule (chatId : Nat) (now : Str) (ud : UserData) (pending : List Nat)
    (gw : GWResult) : HandlerOut :=
  match ud.formatted_data with
  | none =>
    { userData := ud, pending := pending, reply := .noDataToSubmit,
      nextState := CONV_END, written := [] }
  | some data =>
    match gw with
    | .ok =>
      { userData := {}, pending := pending, reply := .scheduleSubmitted,
        nextState := INPUT_DATA,
        written := [scheduleRow chatId now data (ud.user_name.getD [])] }
    | .err m =>
      { userData := ud, pending := addPending pending chatId,
        reply := .errorSavingSchedule m, nextState := INPUT_DATA, written := [] }

/-- The row appended by `submit_personal_info`. -/
def personalInfoRow (chatId : Nat) (now : Str) (p : PersonalInfoRecord) : Row :=
  [.num chatId, .str now, .str p.first_name, .str p.last_name, .str p.uri,
   .str p.lokal, .str p.district, .str p.housing, .str p.wife_chat_id,
   .str p.wife_name]

/-- `submit_personal_info`: both outcomes return `ConversationHandler.END`;
a gateway failure adds the chat to the pending registry and keeps `user_data`. -/
def submit_personal_info (chatId : Nat) (now : Str) (ud : UserData)
    (pending : List Nat) (gw : GWResult) : HandlerOut :=
  match ud.personal_info with
  | none =>
    { userData := ud, pending := pending, reply := .noInfoToSubmit,
      nextState := CONV_END, written := [] }
  | some p =>
    match gw with
    | .ok =>
      { userData := {}, pending := pending, reply := .infoRecorded,
        nextState := CONV_END, written := [personalInfoRow chatId now p] }
    | .err m =>
      { userData := ud, pending := addPending pending chatId,
        reply := .errorSavingInfo m, nextState := CONV_END, written := [] }

/-- `submit_concern`: an absent or empty (falsy) stored message yields the
no-message notice; both gateway outcomes return `ConversationHandler.END`. -/
def submit_concern (chatId : Nat) (now : Str) (ud : UserData) (pending : List Nat)
    (gw : GWResult) : HandlerOut :=
  match ud.concern_message with
  | none =>
    { userData := ud, pending := pending, reply := .noMessageToSubmit,
      nextState := CONV_END, written := [] }
  | some m =>
    if m = [] then
      { userData := ud, pending := pending, reply := .noMessageToSubmit,
        nextState := CONV_END, written := [] }
    else
      match gw with
      | .ok =>
        { userData := {}, pending := pending, reply := .concernSent,
          nextState := CONV_END,
          written := [[.num chatId, .str now, .str (ud.user_name.getD []), .str m]] }
      | .err e =>
        { userData := ud, pending := addPending pending chatId,
          reply := .errorSendingConcern e, nextState := CONV_END, written := [] }

/-- One notification attempt of the background loop: the success path removes the
identifier from the set (`remove`), the exception handler discards it
(`discard`); on the list-modelled set both erase it. -/
def notifyAttempt (reg : List Nat) (c : Nat) (delivered : Bool) : List Nat :=
  if delivered then reg.erase c else discardPending reg c

/-- One cycle of `notify_pending`: iterate a snapshot (`list(pending_notifications)`)
of the registry, attempt each member, and collect the attempted identifiers.
Returns (final registry, attempted identifiers in order). -/
def notifyCycle (pending : List Nat) (deliver : Nat → Bool) : List Nat × List Nat :=
  pending.foldl (fun st c => (notifyAttempt st.1 c (deliver c), st.2 ++ [c]))
    (pending, [])

-- ======================
-- Helper lemmas
-- ======================

lemma toLowerCh_toLowerCh (c : Nat) : toLowerCh (toLowerCh c) = toLowerCh c := by
  simp only [toLowerCh, isUpperCh, Bool.and_eq_true, decide_eq_true_eq]
  split_ifs <;> omega

lemma toLowerCh_toUpperCh (c : Nat) : toLowerCh (toUpperCh c) = toLowerCh c := by
  simp only [toLowerCh, toUpperCh, isUpperCh, isLowerCh, Bool.and_eq_true,
    decide_eq_true_eq]
  split_ifs <;> omega

lemma toUpperCh_toLowerCh (c : Nat) : toUpperCh (toLowerCh c) = toUpperCh c := by
  simp only [toLowerCh, toUpperCh, isUpperCh, isLowerCh, Bool.and_eq_true,
    decide_eq_true_eq]
  split_ifs <;> omega

lemma pyLower_pyLower (s : Str) : pyLower (pyLower s) = pyLower s := by
  induction s with
  | nil => rfl
  | cons c rest ih =>
    simp only [pyLower, List.map_cons, List.cons.injEq] at *
    exact ⟨toLowerCh_toLowerCh c, ih⟩

lemma pyLower_pyTitleAux (s : Str) : ∀ b, pyLower (pyTitleAux b s) = pyLower s := by
  induction s with
  | nil => intro b; rfl
  | cons c rest ih =>
    intro b
    simp only [pyTitleAux, pyLower, List.map_cons, List.cons.injEq]
    refine ⟨?_, ih (isAlphaCh c)⟩
    cases hca : isAlphaCh c <;> cases b <;>
      simp [toLowerCh_toLowerCh, toLowerCh_toUpperCh]

lemma pyLower_pyTitle (s : Str) : pyLower (pyTitle s) = pyLower s :=
  pyLower_pyTitleAux s false

lemma pyCapitalize_pyLower (s : Str) : pyCapitalize (pyLower s) = pyCapitalize s := by
  cases s with
  | nil => rfl
  | cons c rest =>
    simp only [pyLower, List.map_cons, pyCapitalize, List.cons.injEq]
    exact ⟨toUpperCh_toLowerCh c, pyLower_pyLower rest⟩

lemma ite_range (h m : Nat) (out : Str) :
    (if h < 1 ∨ 12 < h ∨ 59 < m then (none : Option Str) else some out)
      = if 1 ≤ h ∧ h ≤ 12 ∧ m ≤ 59 then some out else none := by
  split_ifs <;> first | rfl | omega

lemma lookupStr_mem (k v : Str) : ∀ m, lookupStr k m = some v → (k, v) ∈ m := by
  intro m
  induction m with
  | nil => intro h; simp [lookupStr] at h
  | cons p rest ih =>
    rcases p with ⟨k0, v0⟩
    intro h
    simp only [lookupStr] at h
    split_ifs at h with hk
    · cases h; subst hk; exact List.mem_cons_self _ _
    · exact List.mem_cons_of_mem _ (ih h)

lemma days_mapping_lookup (k v : Str) (h : lookupStr k days_mapping = some v) :
    v ∈ DAY_CODES ∧ (pyCapitalize k).take 3 = v := by
  have hm := lookupStr_mem k v days_mapping h
  have hall : ∀ p ∈ days_mapping, p.2 ∈ DAY_CODES ∧ (pyCapitalize p.1).take 3 = p.2 := by
    decide
  exact hall (k, v) hm

lemma validateScheduleParts_ne_arity (d t l g lang : Str) :
    validateScheduleParts d t l g lang ≠ .error .arity := by
  rcases hft : format_time t with _ | ft <;>
  rcases hfg : format_gampanin g with _ | fg <;>
  rcases hfl : format_language lang with _ | fl <;>
  by_cases hd : format_day d ∈ DAY_CODES <;>
  simp [validateScheduleParts, hft, hfg, hfl, hd]

lemma validatePInfoParts_ne_arity (fn ln uri lokal district housing wid wname : Str) :
    validatePInfoParts fn ln uri lokal district housing wid wname ≠ .error .arity := by
  rcases hfu : format_uri uri with _ | fu <;>
  cases hd : pyIsDigit wid <;>
  simp [validatePInfoParts, hfu, hd]

lemma notifyAttempt_eq_erase (reg : List Nat) (c : Nat) (b : Bool) :
    notifyAttempt reg c b = reg.erase c := by
  cases b <;> rfl

lemma foldl_erase_pair (l : List Nat) :
    ∀ acc att : List Nat,
      l.foldl (fun (st : List Nat × List Nat) c => (st.1.erase c, st.2 ++ [c])) (acc, att)
        = (acc.diff l, att ++ l) := by
  induction l with
  | nil => intro acc att; simp
  | cons c rest ih =>
    intro acc att
    simp only [List.foldl_cons]
    rw [ih]
    simp [List.diff_cons]

lemma list_diff_self (l : List Nat) : l.diff l = [] := by
  induction l with
  | nil => rfl
  | cons c rest ih => simpa [List.diff_cons] using ih

lemma notifyCycle_eq (pending : List Nat) (deliver : Nat → Bool) :
    notifyCycle pending deliver = ([], pending) := by
  unfold notifyCycle
  have hfun :
      (fun (st : List Nat × List Nat) c => (notifyAttempt st.1 c (deliver c), st.2 ++ [c]))
        = fun (st : List Nat × List Nat) c => (st.1.erase c, st.2 ++ [c]) := by
    funext st c
    rw [notifyAttempt_eq_erase]
  rw [hfun, foldl_erase_pair, list_diff_self]
  simp

/-- Spec side of claim C2 for an input with no AM/PM marker, written from the
claim's words as a function of the digit core: hours are all digits but the last
two when the core is longer than two digits, else the whole core with minutes 0;
hours at least 12 yield PM (subtracting 12 when above 12) and hour 0 yields
12 AM; the result is rejected unless the final hour is in 1..12 and the minutes
in 0..59. -/
def c2SpecNoPeriod (core : Str) : Option Str :=
  let h0 := if 2 < core.length then digitsToNat (core.take (core.length - 2))
            else digitsToNat core
  let m := if 2 < core.length then digitsToNat (core.drop (core.length - 2)) else 0
  let h := if 12 ≤ h0 then (if 12 < h0 then h0 - 12 else h0)
           else (if h0 = 0 then 12 else h0)
  let per := if 12 ≤ h0 then pmStr else amStr
  if 1 ≤ h ∧ h ≤ 12 ∧ m ≤ 59 then some (renderTime h m per) else none

/-- Hours/minutes read from the digit core with a fixed period string, and the
final range gate: the common part of claim C2's description for marked inputs. -/
def c2SpecPeriodGen (core per : Str) : Option Str :=
  let h := if 2 < core.length then digitsToNat (core.take (core.length - 2))
           else digitsToNat core
  let m := if 2 < core.length then digitsToNat (core.drop (core.length - 2)) else 0
  if 1 ≤ h ∧ h ≤ 12 ∧ m ≤ 59 then some (renderTime h m per) else none

/-- Spec side of claim C2 for an input with an AM/PM marker: hours and minutes
read from the digit core the same way, the marker kept (AM wins when both
occur), and the same final range gate. -/
def c2SpecPeriod (core : Str) (isAM : Bool) : Option Str :=
  c2SpecPeriodGen core (if isAM then amStr else pmStr)

lemma format_time_with_marker (s per : Str)
    (hper : (if (containsSub amStr (stripSpacesUpper s)
                  || containsSub pmStr (stripSpacesUpper s)) = true
             then (if containsSub amStr (stripSpacesUpper s) = true
                   then amStr else pmStr)
             else ([] : Str)) = per)
    (hne : per ≠ [])
    (hC : (stripSpacesUpper s).filter isDigitCh ≠ []) :
    format_time s = c2SpecPeriodGen ((stripSpacesUpper s).filter isDigitCh) per := by
  simp only [format_time, c2SpecPeriodGen, hper, if_neg hne, if_neg hC]
  by_cases hL : ((stripSpacesUpper s).filter isDigitCh).length ≤ 2
  · have hL2 : ¬ 2 < ((stripSpacesUpper s).filter isDigitCh).length := by omega
    simp only [if_pos hL, if_neg hL2]
    rw [ite_range]
  · have hL2 : 2 < ((stripSpacesUpper s).filter isDigitCh).length := by omega
    simp only [if_neg hL, if_pos hL2]
    rw [ite_range]

/-- A concrete schedule record used in counterexamples and witnesses. -/
def sampleSched : ScheduleRecord :=
  { day := strL "Thu", day_full := strL "Thursday", time := strL "5:45 AM",
    gampanin := strL "R1", language := strL "Tag", loc := strL "Green Condo" }

-- ======================
-- Claim theorems
-- ======================

/-- C1 (counterexample): the claim says that on a successful write the schedule
dialog ends (session resets to no active dialog); in the code `submit_schedule`
returns `INPUT_DATA` after a successful write, shown here at a concrete session
holding a draft. -/
theorem c1_counterexample :
    (submit_schedule 7 (strL "2025-01-01 00:00:00")
      { formatted_data := some sampleSched,
        user_name := some (strL "Juan Dela Cruz"), personal_info := none,
        concern_message := none }
      [] .ok).nextState ≠ CONV_END := by
  decide

/-- C1 (amended): in the confirmation state, `/submit` with a stored schedule
draft invokes the gateway with that draft; on a successful write the draft is
cleared and the dialog returns to the input state (it does not end); on a
transient failure the chat id is added to the pending registry, the error reply
is shown, the dialog returns to the input state, and the draft remains stored. -/
theorem c1_submit_schedule_amended :
    ∀ (chatId : Nat) (now : Str) (ud : UserData) (pending : List Nat)
      (data : ScheduleRecord), ud.formatted_data = some data →
      INPUT_DATA ≠ CONV_END ∧
      submit_schedule chatId now ud pending .ok =
        { userData := {}, pending := pending, reply := .scheduleSubmitted,
          nextState := INPUT_DATA,
          written := [scheduleRow chatId now data (ud.user_name.getD [])] } ∧
      ∀ m : Str,
        submit_schedule chatId now ud pending (.err m) =
          { userData := ud, pending := addPending pending chatId,
            reply := .errorSavingSchedule m, nextState := INPUT_DATA,
            written := [] } ∧
        chatId ∈ (submit_schedule chatId now ud pending (.err m)).pending ∧
        (submit_schedule chatId now ud pending (.err m)).userData.formatted_data
          = some data := by
  intro chatId now ud pending data h
  refine ⟨by decide, by simp [submit_schedule, h], ?_⟩
  intro m
  refine ⟨by simp [submit_schedule, h], ?_, by simp [submit_schedule, h]⟩
  simp only [submit_schedule, h, addPending]
  by_cases hc : chatId ∈ pending <;> simp [hc]

/-- C1 (witness): the failure branch at a concrete session retains the draft. -/
theorem c1_witness :
    (submit_schedule 7 (strL "t") { formatted_data := some sampleSched }
      [] (.err (strL "e"))).userData.formatted_data = some sampleSched :=
  ((c1_submit_schedule_amended 7 (strL "t") _ [] _ rfl).2.2 (strL "e")).2.2

/-- C6 (counterexample): the claim says every dialog entry point clears any prior
stored draft for that dialog; in the code `send_command` leaves a stored
schedule draft in place and `concern_command` leaves a stored concern message in
place, shown here at concrete sessions holding drafts. -/
theorem c6_counterexample :
    (send_command 7 { formatted_data := some sampleSched }
      [7]).userData.formatted_data ≠ none ∧
    (concern_command 7 { concern_message := some (strL "hello") }
      [7]).userData.concern_message ≠ none := by
  exact ⟨by decide, by decide⟩

/-- C6 (amended): every dialog entry point removes the chat id from the pending
registry (removal of an absent id is a no-op, not an error) and places the
session in that dialog's input state; `info_command` additionally clears the
prior personal-info draft, but `send_command` and `concern_command` leave their
dialogs' prior drafts in place. -/
theorem c6_entry_points_amended :
    (∀ (chatId : Nat) (ud : UserData) (pending : List Nat),
      send_command chatId ud pending =
        { userData := ud, pending := discardPending pending chatId,
          reply := .sendPrompt, nextState := INPUT_DATA, written := [] } ∧
      info_command chatId ud pending =
        { userData := { ud with personal_info := none },
          pending := discardPending pending chatId,
          reply := .infoPrompt, nextState := INFO_INPUT, written := [] } ∧
      concern_command chatId ud pending =
        { userData := ud, pending := discardPending pending chatId,
          reply := .concernPrompt, nextState := CONCERN_INPUT, written := [] }) ∧
    (∀ (chatId : Nat) (pending : List Nat), chatId ∉ pending →
      discardPending pending chatId = pending) := by
  refine ⟨fun _ _ _ => ⟨rfl, rfl, rfl⟩, ?_⟩
  intro c p h
  exact List.erase_of_not_mem h

/-- C6 (witness): discarding an absent chat id from a concrete registry is a
no-op. -/
theorem c6_witness :
    (9 : Nat) ∉ ([1, 2] : List Nat) ∧ discardPending [1, 2] 9 = [1, 2] :=
  ⟨by decide, c6_entry_points_amended.2 9 [1, 2] (by decide)⟩

/-- C8: one cycle of the background notification loop iterates the whole snapshot
of the registry (a failed delivery never aborts the remainder), and afterwards
every member is absent from the registry: a successful delivery removes it and a
failed delivery also removes it. -/
theorem c8_notify_cycle_spec :
    ∀ (pending : List Nat) (deliver : Nat → Bool),
      (notifyCycle pending deliver).2 = pending ∧
      (notifyCycle pending deliver).1 = [] ∧
      ∀ c, c ∈ pending → c ∉ (notifyCycle pending deliver).1 := by
  intro pending deliver
  rw [notifyCycle_eq]
  exact ⟨rfl, rfl, fun c _ => List.not_mem_nil c⟩

/-- C8 (witness): a registry where delivery succeeds only for chat id 1 still
ends the cycle empty, and id 3 (whose delivery failed) is absent. -/
theorem c8_witness :
    (3 : Nat) ∈ ([1, 2, 3] : List Nat) ∧
    (3 : Nat) ∉ (notifyCycle [1, 2, 3] (fun c => c == 1)).1 :=
  ⟨by decide, (c8_notify_cycle_spec [1, 2, 3] (fun c => c == 1)).2.2 3 (by decide)⟩

/-- C10: each `/submit` handler, when its dialog's draft is absent (or, for the
concern dialog, empty and hence falsy), replies with its no-data notice, writes
nothing to the store, ends the conversation, and leaves both the session data
and the pending registry unchanged. -/
theorem c10_submit_empty_spec :
    ∀ (chatId : Nat) (now : Str) (ud : UserData) (pending : List Nat)
      (gw : GWResult),
      (ud.formatted_data = none →
        submit_schedule chatId now ud pending gw =
          { userData := ud, pending := pending, reply := .noDataToSubmit,
            nextState := CONV_END, written := [] }) ∧
      (ud.personal_info = none →
        submit_personal_info chatId now ud pending gw =
          { userData := ud, pending := pending, reply := .noInfoToSubmit,
            nextState := CONV_END, written := [] }) ∧
      (ud.concern_message = none ∨ ud.concern_message = some [] →
        submit_concern chatId now ud pending gw =
          { userData := ud, pending := pending, reply := .noMessageToSubmit,
            nextState := CONV_END, written := [] }) := by
  intro chatId now ud pending gw
  refine ⟨fun h => by simp [submit_schedule, h],
          fun h => by simp [submit_personal_info, h], ?_⟩
  rintro (h | h) <;> simp [submit_concern, h]

/-- C10 (witness): `/submit` on an empty session ends the conversation with the
no-data notice and no write. -/
theorem c10_witness :
    submit_schedule 7 (strL "t") {} [] .ok =
      { userData := {}, pending := [], reply := .noDataToSubmit,
        nextState := CONV_END, written := [] } :=
  (c10_submit_empty_spec 7 (strL "t") {} [] .ok).1 rfl

/-- C4: `format_uri` returns the trimmed, title-cased input when it is one of the
9 accepted spellings; otherwise it falls back on the first letter of the
lower-cased input: m yields Minister, r yields Regular, s yields Student, and
anything else is rejected; in particular "ram" and the ambiguous "rs" both
resolve to Regular. -/
theorem c4_format_uri_spec :
    VALID_URI.length = 9 ∧
    format_uri (strL "ram") = some (strL "Regular") ∧
    format_uri (strL "rs") = some (strL "Regular") ∧
    (∀ s : Str, pyTitle (pyStrip s) ∈ VALID_URI →
      format_uri s = some (pyTitle (pyStrip s))) ∧
    (∀ s : Str, pyTitle (pyStrip s) ∉ VALID_URI →
      format_uri s =
        (if startsWithCh 109 (pyLower (pyStrip s)) then some (strL "Minister")
         else if startsWithCh 114 (pyLower (pyStrip s)) then some (strL "Regular")
         else if startsWithCh 115 (pyLower (pyStrip s)) then some (strL "Student")
         else none)) := by
  refine ⟨by decide, by decide, by decide, ?_, ?_⟩
  · intro s h
    simp [format_uri, h]
  · intro s h
    simp only [format_uri, h, if_false]
    rw [pyLower_pyTitle]

/-- C4 (witness): an accepted spelling is returned title-cased, and a token with
no accepted spelling and no m/r/s first letter is rejected via the fallback. -/
theorem c4_witness :
    format_uri (strL "min") = some (pyTitle (pyStrip (strL "min"))) ∧
    format_uri (strL "xyz") =
      (if startsWithCh 109 (pyLower (pyStrip (strL "xyz"))) then some (strL "Minister")
       else if startsWithCh 114 (pyLower (pyStrip (strL "xyz"))) then some (strL "Regular")
       else if startsWithCh 115 (pyLower (pyStrip (strL "xyz"))) then some (strL "Student")
       else none) :=
  ⟨c4_format_uri_spec.2.2.2.1 (strL "min") (by decide),
   c4_format_uri_spec.2.2.2.2 (strL "xyz") (by decide)⟩

/-- C5 (counterexample): the claim says the accepted three-letter prefixes form a
set of exactly 24 codes; no 24-element set can characterize acceptance, because
the 25 distinct members of `VALID_LANGUAGES` are all accepted. -/
theorem c5_counterexample :
    ¬ ∃ S : Finset Str, S.card = 24 ∧
      ∀ s : Str, (format_language s).isSome = true ↔
        (pyTitle (pyStrip s)).take 3 ∈ S := by
  rintro ⟨S, hcard, hiff⟩
  have key : ∀ v ∈ VALID_LANGUAGES,
      (pyTitle (pyStrip v)).take 3 = v ∧ (format_language v).isSome = true := by
    decide
  have hsub : VALID_LANGUAGES.toFinset ⊆ S := by
    intro v hv
    rw [List.mem_toFinset] at hv
    obtain ⟨h1, h2⟩ := key v hv
    have hs := (hiff v).mp h2
    rwa [h1] at hs
  have hle : VALID_LANGUAGES.toFinset.card ≤ S.card := Finset.card_le_card hsub
  have h25 : VALID_LANGUAGES.toFinset.card = 25 := by decide
  omega

/-- C5 (amended): `format_language` takes the first three characters of the
trimmed, title-cased input and accepts the input (returning those three
characters) if and only if they belong to the fixed set of exactly 25 distinct
three-letter codes `VALID_LANGUAGES`. -/
theorem c5_format_language_amended :
    VALID_LANGUAGES.toFinset.card = 25 ∧
    VALID_LANGUAGES.all (fun v => v.length == 3) = true ∧
    (∀ s : Str, format_language s =
      (if (pyTitle (pyStrip s)).take 3 ∈ VALID_LANGUAGES
       then some ((pyTitle (pyStrip s)).take 3) else none)) := by
  exact ⟨by decide, by decide, fun s => rfl⟩

/-- C3: the schedule parser splits on commas into trimmed segments and returns
the arity error exactly when there are not 5 of them (and the arity error is
distinct from every per-field error); with 5 segments it validates day, time,
gampanin, language in this fixed order returning only the first failing field's
error; the location segment is never validated, only normalized by
`format_local`, and when every field passes the normalized record is returned. -/
theorem c3_parse_schedule_spec :
    (∀ text : Str, parse_and_validate_schedule_input text = .error .arity ↔
      ((splitOn 44 text).map pyStrip).length ≠ 5) ∧
    (∀ d t l g lang : Str, format_day d ∉ DAY_CODES →
      validateScheduleParts d t l g lang = .error (.invalidDay d)) ∧
    (∀ d t l g lang : Str, format_day d ∈ DAY_CODES → format_time t = none →
      validateScheduleParts d t l g lang = .error (.invalidTime t)) ∧
    (∀ (d t l g lang ft : Str), format_day d ∈ DAY_CODES →
      format_time t = some ft → format_gampanin g = none →
      validateScheduleParts d t l g lang = .error (.invalidGampanin g)) ∧
    (∀ (d t l g lang ft fg : Str), format_day d ∈ DAY_CODES →
      format_time t = some ft → format_gampanin g = some fg →
      format_language lang = none →
      validateScheduleParts d t l g lang = .error (.invalidLanguage lang)) ∧
    (∀ (d t l g lang ft fg fl : Str), format_day d ∈ DAY_CODES →
      format_time t = some ft → format_gampanin g = some fg →
      format_language lang = some fl →
      validateScheduleParts d t l g lang =
        .ok { day := format_day d,
              day_full := lookupStrD (format_day d) DAY_FULL_NAMES (format_day d),
              time := ft, gampanin := fg, language := fl,
              loc := format_local l }) ∧
    (∀ s : Str, SchedErr.arity ≠ .invalidDay s ∧ SchedErr.arity ≠ .invalidTime s ∧
      SchedErr.arity ≠ .invalidGampanin s ∧ SchedErr.arity ≠ .invalidLanguage s) := by
  refine ⟨?_, ?_, ?_, ?_, ?_, ?_, fun s => ⟨by simp, by simp, by simp, by simp⟩⟩
  · intro text
    unfold parse_and_validate_schedule_input
    by_cases h5 : (splitOn 44 text).length = 5
    · simp [h5, validateScheduleParts_ne_arity]
    · simp [h5]
  · intro d t l g lang h
    simp [validateScheduleParts, h]
  · intro d t l g lang h ht
    simp [validateScheduleParts, h, ht]
  · intro d t l g lang ft h ht hg
    simp [validateScheduleParts, h, ht, hg]
  · intro d t l g lang ft fg h ht hg hl
    simp [validateScheduleParts, h, ht, hg, hl]
  · intro d t l g lang ft fg fl h ht hg hl
    simp [validateScheduleParts, h, ht, hg, hl]

/-- C3 (witness): a bad day short-circuits the other fields, and a 2-segment
input yields the arity error. -/
theorem c3_witness :
    validateScheduleParts (strL "Xxx") (strL "bad") (strL "Loc") (strL "bad")
      (strL "bad") = .error (.invalidDay (strL "Xxx")) ∧
    parse_and_validate_schedule_input (strL "a,b") = .error .arity :=
  ⟨c3_parse_schedule_spec.2.1 (strL "Xxx") (strL "bad") (strL "Loc") (strL "bad")
      (strL "bad") (by decide),
   (c3_parse_schedule_spec.1 (strL "a,b")).mpr (by decide)⟩

/-- C7: the personal-info parser splits on periods and uses those segments when
there are exactly 8; otherwise it re-splits the original text on commas, and
only when that also fails to give 8 segments does it return the arity error;
with 8 segments the Uri field is validated before the wife-chat-id digits check
(so when both are invalid only the Uri error is returned); the wife chat id is
accepted exactly when it is a nonempty run of digits (any run of zeros
permitted), and its failure yields an error distinct from the Uri error. -/
theorem c7_personal_info_spec :
    (∀ text : Str, ((splitOn 46 text).map pyStrip).length = 8 →
      parse_and_validate_personal_info text =
        validatePInfoParts (((splitOn 46 text).map pyStrip).getD 0 [])
          (((splitOn 46 text).map pyStrip).getD 1 [])
          (((splitOn 46 text).map pyStrip).getD 2 [])
          (((splitOn 46 text).map pyStrip).getD 3 [])
          (((splitOn 46 text).map pyStrip).getD 4 [])
          (((splitOn 46 text).map pyStrip).getD 5 [])
          (((splitOn 46 text).map pyStrip).getD 6 [])
          (((splitOn 46 text).map pyStrip).getD 7 [])) ∧
    (∀ text : Str, ((splitOn 46 text).map pyStrip).length ≠ 8 →
      ((splitOn 44 text).map pyStrip).length = 8 →
      parse_and_validate_personal_info text =
        validatePInfoParts (((splitOn 44 text).map pyStrip).getD 0 [])
          (((splitOn 44 text).map pyStrip).getD 1 [])
          (((splitOn 44 text).map pyStrip).getD 2 [])
          (((splitOn 44 text).map pyStrip).getD 3 [])
          (((splitOn 44 text).map pyStrip).getD 4 [])
          (((splitOn 44 text).map pyStrip).getD 5 [])
          (((splitOn 44 text).map pyStrip).getD 6 [])
          (((splitOn 44 text).map pyStrip).getD 7 [])) ∧
    (∀ text : Str, ((splitOn 46 text).map pyStrip).length ≠ 8 →
      ((splitOn 44 text).map pyStrip).length ≠ 8 →
      parse_and_validate_personal_info text = .error .arity) ∧
    (∀ fn ln uri lokal district housing wid wname : Str, format_uri uri = none →
      validatePInfoParts fn ln uri lokal district housing wid wname =
        .error (.invalidUri uri)) ∧
    (∀ (fn ln uri lokal district housing wid wname fu : Str),
      format_uri uri = some fu →
      (pyIsDigit wid = true →
        validatePInfoParts fn ln uri lokal district housing wid wname =
          .ok { first_name := format_name fn, last_name := format_name ln,
                uri := fu, uri_display := uriDisplay fu,
                lokal := format_name lokal, district := format_name district,
                housing := format_housing housing,
                wife_chat_id := wid, wife_name := format_name wname }) ∧
      (pyIsDigit wid = false →
        validatePInfoParts fn ln uri lokal district housing wid wname =
          .error .wifeIdNotDigits)) ∧
    (∀ s : Str, pyIsDigit s = true ↔ s ≠ [] ∧ ∀ c ∈ s, isDigitCh c = true) ∧
    (pyIsDigit (strL "0") = true ∧ pyIsDigit (strL "000") = true) ∧
    (∀ u : Str, PInfoErr.wifeIdNotDigits ≠ .invalidUri u ∧
      PInfoErr.arity ≠ .invalidUri u ∧ PInfoErr.arity ≠ .wifeIdNotDigits) := by
  refine ⟨?_, ?_, ?_, ?_, ?_, ?_, ⟨by decide, by decide⟩,
    fun u => ⟨by simp, by simp, by simp⟩⟩
  · intro text h
    rw [List.length_map] at h
    simp [parse_and_validate_personal_info, h]
  · intro text h h44
    rw [List.length_map] at h h44
    simp [parse_and_validate_personal_info, h, h44]
  · intro text h h44
    rw [List.length_map] at h h44
    simp [parse_and_validate_personal_info, h, h44]
  · intro fn ln uri lokal district housing wid wname h
    simp [validatePInfoParts, h]
  · intro fn ln uri lokal district housing wid wname fu h
    exact ⟨fun hd => by simp [validatePInfoParts, h, hd],
           fun hd => by simp [validatePInfoParts, h, hd]⟩
  · intro s
    simp [pyIsDigit, List.all_eq_true, List.isEmpty_iff]

/-- C7 (witness): an invalid Uri masks an invalid wife chat id, and a text that
yields 8 segments under neither delimiter gives the arity error. -/
theorem c7_witness :
    validatePInfoParts (strL "a") (strL "b") (strL "xx") (strL "d") (strL "e")
      (strL "f") (strL "zz") (strL "h") = .error (.invalidUri (strL "xx")) ∧
    parse_and_validate_personal_info (strL "x") = .error .arity :=
  ⟨c7_personal_info_spec.2.2.2.1 (strL "a") (strL "b") (strL "xx") (strL "d")
      (strL "e") (strL "f") (strL "zz") (strL "h") (by decide),
   c7_personal_info_spec.2.2.1 (strL "x") (by decide) (by decide)⟩

/-- C9: the day validator accepts a token exactly when the capitalized 3-letter
prefix of its trimmed form is one of the 7 canonical codes, so loose inputs like
"Thurs", "Thursdays" and "monday!" are accepted, and every accepted schedule
record stores one of the 7 canonical codes as its day. -/
theorem c9_format_day_spec :
    (∀ s : Str, format_day s ∈ DAY_CODES ↔
      (pyCapitalize (pyStrip s)).take 3 ∈ DAY_CODES) ∧
    format_day (strL "Thurs") = strL "Thu" ∧
    format_day (strL "Thursdays") = strL "Thu" ∧
    format_day (strL "monday!") = strL "Mon" ∧
    (∀ (d t l g lang : Str) (r : ScheduleRecord),
      validateScheduleParts d t l g lang = .ok r → r.day ∈ DAY_CODES) := by
  refine ⟨?_, by decide, by decide, by decide, ?_⟩
  · intro s
    cases hl : lookupStr (pyLower (pyStrip s)) days_mapping with
    | none =>
      simp only [format_day, hl]
      rw [pyCapitalize_pyLower]
    | some v =>
      obtain ⟨hv, hcap⟩ := days_mapping_lookup _ _ hl
      rw [pyCapitalize_pyLower] at hcap
      simp only [format_day, hl]
      rw [hcap]
  · intro d t l g lang r h
    rcases hft : format_time t with _ | ft <;>
    rcases hfg : format_gampanin g with _ | fg <;>
    rcases hfl : format_language lang with _ | fl <;>
    by_cases hd : format_day d ∈ DAY_CODES <;>
    simp [validateScheduleParts, hft, hfg, hfl, hd] at h
    rw [← h]
    exact hd

/-- C9 (witness): a loose day token is accepted and the stored day is the
canonical code. -/
theorem c9_witness :
    ({ day := strL "Thu", day_full := strL "Thursday", time := strL "5:00 AM",
       gampanin := strL "R1", language := strL "Tag",
       loc := strL "Lokal" } : ScheduleRecord).day ∈ DAY_CODES :=
  c9_format_day_spec.2.2.2.2 (strL "Thurs") (strL "5AM") (strL "Lokal")
    (strL "R1") (strL "Tag") _ (by rfl)

/-- C2: `format_time` behaves exactly as described on every input with a
nonempty digit core — HHMM split when the core is longer than two digits,
24-hour disambiguation when no AM/PM marker is supplied, final hour gated to
1..12 and minutes to 0..59 — and on the four quoted examples: "0" becomes
"12:00 AM", "13" becomes "1:00 PM", "5" becomes "5:00 AM", and "25" is
rejected. -/
theorem c2_format_time_spec :
    format_time (strL "0") = some (strL "12:00 AM") ∧
    format_time (strL "13") = some (strL "1:00 PM") ∧
    format_time (strL "5") = some (strL "5:00 AM") ∧
    format_time (strL "25") = none ∧
    (∀ s : Str, containsSub amStr (stripSpacesUpper s) = false →
      containsSub pmStr (stripSpacesUpper s) = false →
      coreOf s ≠ [] →
      format_time s = c2SpecNoPeriod (coreOf s)) ∧
    (∀ s : Str,
      (containsSub amStr (stripSpacesUpper s)
        || containsSub pmStr (stripSpacesUpper s)) = true →
      coreOf s ≠ [] →
      format_time s = c2SpecPeriod (coreOf s)
        (containsSub amStr (stripSpacesUpper s))) := by
  refine ⟨by decide, by decide, by decide, by decide, ?_, ?_⟩
  · intro s hA hP hC
    simp only [coreOf] at hC
    simp only [format_time, c2SpecNoPeriod, coreOf, hA, hP, Bool.or_self,
      Bool.false_eq_true, if_false, hC, reduceIte]
    by_cases hL : ((stripSpacesUpper s).filter isDigitCh).length ≤ 2
    · have hL2 : ¬ 2 < ((stripSpacesUpper s).filter isDigitCh).length := by omega
      simp only [if_pos hL, if_neg hL2]
      rw [ite_range]
    · have hL2 : 2 < ((stripSpacesUpper s).filter isDigitCh).length := by omega
      simp only [if_neg hL, if_pos hL2]
      rw [ite_range]
  · intro s hOr hC
    simp only [coreOf] at hC
    by_cases hA : containsSub amStr (stripSpacesUpper s) = true
    · have hper : (if (containsSub amStr (stripSpacesUpper s)
                        || containsSub pmStr (stripSpacesUpper s)) = true
                   then (if containsSub amStr (stripSpacesUpper s) = true
                         then amStr else pmStr)
                   else ([] : Str)) = amStr := by
        rw [hA]
        simp
      have h1 := format_time_with_marker s amStr hper (by decide) hC
      rw [h1]
      simp only [coreOf, c2SpecPeriod, hA, if_true]
    · have hP : containsSub pmStr (stripSpacesUpper s) = true := by
        rcases Bool.or_eq_true_iff.mp hOr with h | h
        · exact absurd h hA
        · exact h
      have hA2 : containsSub amStr (stripSpacesUpper s) = false :=
        Bool.eq_false_iff.mpr hA
      have hper : (if (containsSub amStr (stripSpacesUpper s)
                        || containsSub pmStr (stripSpacesUpper s)) = true
                   then (if containsSub amStr (stripSpacesUpper s) = true
                         then amStr else pmStr)
                   else ([] : Str)) = pmStr := by
        rw [hA2, hP]
        simp
      have h1 := format_time_with_marker s pmStr hper (by decide) hC
      rw [h1]
      simp only [coreOf, c2SpecPeriod, hA2, Bool.false_eq_true, if_false]

/-- C2 (witness): both general clauses at concrete inputs with nonempty cores. -/
theorem c2_witness :
    format_time (strL "530") = c2SpecNoPeriod (coreOf (strL "530")) ∧
    format_time (strL "530PM") =
      c2SpecPeriod (coreOf (strL "530PM"))
        (containsSub amStr (stripSpacesUpper (strL "530PM"))) :=
  ⟨c2_format_time_spec.2.2.2.2.1 (strL "530") (by decide) (by decide) (by decide),
   c2_format_time_spec.2.2.2.2.2 (strL "530PM") (by decide) (by decide)⟩
